import Mathlib

/-!
Shallow embedding of the VFD spindle driver
(src/Grbl_Esp32/src/Spindles/VFDSpindle.cpp of TemcoHeng/Grbl_Esp32).

Machine integers are modelled as Nat; the only place where 32-bit overflow
can matter (the override multiply in VFD::set_rpm, where a uint32 rpm is
multiplied by a uint8 percentage in uint32 arithmetic) carries an explicit
mod 2^32.  Bytes travelling on the wire are Nat values; reads of uint8_t
array cells carry an explicit mod 256.  FreeRTOS queue operations are
modelled by a bounded list (capacity VFD_RS485_QUEUE_SIZE, as created by
xQueueCreate in VFD::init).  Vendor-specific virtuals (direction_command,
set_speed_command, get_max_rpm, get_current_rpm, get_current_direction,
get_status_ok) live outside this repository; the generic layer only needs
which command was produced and whether the vendor supplies it, so command
payloads are modelled symbolically and vendor support by Boolean
capability flags.  Logging (grbl_msg_sendf) and blocking waits (mc_dwell,
vTaskDelay) have no effect on the modelled state; the log lines that the
claims mention are recorded as Boolean fields of the transaction result.
-/

namespace Spindles

/-- VFD_RS485_QUEUE_SIZE from VFDSpindle.cpp: number of commands that can
be queued up (capacity passed to xQueueCreate in VFD::init). -/
def VFD_RS485_QUEUE_SIZE : Nat := 10

/-- VFD_RS485_ADDR, the fixed bus address (default 0x01). -/
def VFD_RS485_ADDR : Nat := 0x01

/-- One inner step of VFD::ModRTU_CRC: if the LSB of the 16-bit crc is
set, shift right and XOR 0xA001, else just shift right.  Division by 2 is
the uint16 right shift. -/
def crcBitStep (crc : Nat) : Nat :=
  if crc % 2 == 1 then (crc / 2) ^^^ 0xA001 else crc / 2

/-- One byte of VFD::ModRTU_CRC: XOR the byte into the least significant
byte of the crc (the uint8_t cell read is taken mod 256), then run the
8-iteration bit loop. -/
def crcByteStep (crc b : Nat) : Nat :=
  crcBitStep^[8] (crc ^^^ (b % 256))

/-- VFD::ModRTU_CRC over a byte list (the C++ function walks buf[0..msg_len);
here the list holds exactly those bytes), starting from 0xFFFF. -/
def ModRTU_CRC (buf : List Nat) : Nat :=
  buf.foldl crcByteStep 0xFFFF

/-- Modelled from the spec words only (section 4.1), for comparison with
the source ModRTU_CRC: initialize to 0xFFFF; for each byte, XOR into the
low byte, then for 8 iterations, if bit0 is set, shift right and XOR with
0xA001, else shift right. -/
def crcSpecBitStep (crc : Nat) : Nat :=
  if crc.testBit 0 then (crc >>> 1) ^^^ 0xA001 else crc >>> 1

/-- Spec-side CRC over a byte sequence (section 4.1 wording). -/
def modbusCRCSpec (buf : List Nat) : Nat :=
  buf.foldl (fun c b => crcSpecBitStep^[8] (c ^^^ (b % 256))) 0xFFFF

/-- The frame construction of vfd_cmd_task: compute the CRC over the
message bytes and append it, low byte first, then high byte
(msg[tx_length-2] = crc and 0xFF; msg[tx_length-1] = (crc and 0xFF00) >> 8). -/
def add_crc (msg : List Nat) : List Nat :=
  let crc16 := ModRTU_CRC msg
  msg ++ [crc16 &&& 0xFF, (crc16 &&& 0xFF00) >>> 8]

/-- The CRC part of the response validation in vfd_cmd_task: recompute the
CRC over all bytes except the trailing two and compare byte-for-byte in
the same order (high byte at the last position, low byte before it). -/
def crc_check (rx : List Nat) : Bool :=
  let n := rx.length
  let crc := ModRTU_CRC (rx.take (n - 2))
  (rx.getD (n - 1) 0 == (crc &&& 0xFF00) >>> 8) &&
  (rx.getD (n - 2) 0 == (crc &&& 0xFF))

/-- The full response validation in vfd_cmd_task: expected length received,
source address matches the bus address, and the CRC comparison. -/
def frame_valid (rx_length : Nat) (rx : List Nat) : Bool :=
  (rx.length == rx_length) && (rx.getD 0 0 == VFD_RS485_ADDR) && crc_check rx

/-- SpindleState from the data model (Disable / clockwise / counterclockwise). -/
inductive SpindleState where
  | Disable
  | CW
  | CCW
deriving DecidableEq

/-- Symbolic command payload.  The byte encoding is produced by the
vendor-specific virtuals direction_command / set_speed_command, which are
outside this repository; the generic layer of VFDSpindle.cpp only decides
WHICH command is built and with which parameters. -/
inductive Payload where
  | mode (s : SpindleState)
  | speed (rpm : Nat)
  | other (tag : Nat)
deriving DecidableEq

/-- ModbusCommand as the queue claims need it: the payload and the
critical flag (msg bytes / lengths are vendor-filled, see Payload). -/
structure ModbusCommand where
  payload : Payload
  critical : Bool
deriving DecidableEq

/-- The slice of the grbl system singleton `sys` that VFDSpindle.cpp reads
and writes: abort flag, whether sys.state == State::Cycle, spindle_speed,
spindle_speed_ovr (uint8 percent) and report_ovr_counter. -/
structure SysState where
  abort : Bool
  state_is_cycle : Bool
  spindle_speed : Nat
  spindle_speed_ovr : Nat
  report_ovr_counter : Nat
deriving DecidableEq

/-- Device state owned by the VFD class: vfd_ok (_initialized), the RPM
bounds read at init, the cached rpm and state, the command queue contents,
and the sys slice. -/
structure VFDState where
  vfd_ok : Bool
  min_rpm : Nat
  max_rpm : Nat
  current_rpm : Nat
  current_state : SpindleState
  queue : List ModbusCommand
  sys : SysState
deriving DecidableEq

/-- xQueueSend with zero timeout: append if there is room, else fail and
leave the queue unchanged (the caller only logs the failure). -/
def xQueueSend (q : List ModbusCommand) (c : ModbusCommand) :
    List ModbusCommand × Bool :=
  if q.length < VFD_RS485_QUEUE_SIZE then (q ++ [c], true) else (q, false)

/-- 2^32, the uint32 modulus for the override multiply in set_rpm. -/
def UINT32_MOD : Nat := 4294967296

/-- The limit-application block of VFD::set_rpm, lines 409-413:
if min_rpm >= max_rpm or rpm >= max_rpm, force max_rpm; else if rpm is
nonzero and at most min_rpm, raise to min_rpm; else keep rpm. -/
def clampRpm (min_rpm max_rpm rpm : Nat) : Nat :=
  if min_rpm ≥ max_rpm || rpm ≥ max_rpm then max_rpm
  else if rpm != 0 && rpm ≤ min_rpm then min_rpm
  else rpm

/-- VFD::set_rpm.  Returns the updated state and the uint32 return value.
Steps: bail out with 0 if not vfd_ok; scale by the override percentage
(uint32 arithmetic); apply limits; store into sys.spindle_speed; if the
clamped value equals the cached _current_rpm return without enqueuing;
else update the cache and enqueue a non-critical speed command (a full
queue is only logged). -/
def set_rpm (d : VFDState) (rpm0 : Nat) : VFDState × Nat :=
  if d.vfd_ok = false then (d, 0)
  else
    let rpm1 := rpm0 * d.sys.spindle_speed_ovr % UINT32_MOD / 100
    let rpm := clampRpm d.min_rpm d.max_rpm rpm1
    let d1 := { d with sys := { d.sys with spindle_speed := rpm } }
    if rpm = d.current_rpm then (d1, rpm)
    else
      let d2 := { d1 with current_rpm := rpm }
      ({ d2 with
         queue := (xQueueSend d2.queue { payload := Payload.speed rpm, critical := false }).1 },
       rpm)

/-- VFD::set_mode.  Returns the updated state and the Bool return value.
Steps: bail out with false if not vfd_ok; build the direction command
(vendor virtual); if the mode is Disable, reset (clear) the queue; set the
critical flag; optimistically store _current_state; enqueue (a full queue
is only logged); return true. -/
def set_mode (d : VFDState) (mode : SpindleState) (critical : Bool) :
    VFDState × Bool :=
  if d.vfd_ok = false then (d, false)
  else
    let d1 := if mode = SpindleState.Disable then { d with queue := [] } else d
    let d2 := { d1 with current_state := mode }
    ({ d2 with
       queue := (xQueueSend d2.queue { payload := Payload.mode mode, critical := critical }).1 },
     true)

/-- VFD::set_state.  Blocks during abort; computes the critical flag
(in a job-cycle, or any non-Disable target); on a state change runs
set_mode then set_rpm, zeroes sys.spindle_speed on disable and dwells
(mc_dwell is a pure blocking wait, no state effect); on an unchanged state
only refreshes the rpm when the raw request differs from the cache;
finally stores _current_state and resets sys.report_ovr_counter. -/
def set_state (d : VFDState) (state : SpindleState) (rpm : Nat) : VFDState :=
  if d.sys.abort then d
  else
    let critical := d.sys.state_is_cycle || state != SpindleState.Disable
    let d1 :=
      if d.current_state != state then
        let da := (set_mode d state critical).1
        let db := (set_rpm da rpm).1
        if state = SpindleState.Disable then
          { db with sys := { db.sys with spindle_speed := 0 } }
        else db
      else
        if d.current_rpm != rpm then (set_rpm d rpm).1 else d
    let d2 := { d1 with current_state := state }
    { d2 with sys := { d2.sys with report_ovr_counter := 0 } }

/-- VFD::stop: set_mode(SpindleState::Disable, false), result discarded. -/
def stop (d : VFDState) : VFDState :=
  (set_mode d SpindleState.Disable false).1

/-! ## The communications task (vfd_cmd_task)

The task body is an infinite loop; each iteration first selects a command
(discovery header, queue, or the fall-through poll switch), then runs the
bounded send/receive retry loop and the escalation that follows it.  The
two phases are modelled separately: select_command below, and
exec_transaction for the retry loop. -/

/-- Which of the vendor virtuals used by the poll cycle return a response
interpreter (a non-null response_parser) rather than nullptr. -/
structure VendorCaps where
  has_max_rpm : Bool
  has_current_rpm : Bool
  has_current_direction : Bool
  has_status_ok : Bool
deriving DecidableEq

/-- The command chosen by one iteration of vfd_cmd_task before the
send/receive phase: the max-rpm discovery request, a dequeued envelope,
one of the three poll requests, or nothing (idle: delay and continue). -/
inductive Selected where
  | discover
  | queued (c : ModbusCommand)
  | pollRpm
  | pollDir
  | pollStatus
  | idle
deriving DecidableEq

/-- Result of the selection phase: the chosen command, the critical flag
of next_cmd after selection, the updated static pollidx, and the queue
that remains. -/
structure SelectResult where
  sel : Selected
  critical : Bool
  pollidx : Nat
  queue : List ModbusCommand
deriving DecidableEq

/-- The command-selection phase of one vfd_cmd_task iteration
(VFDSpindle.cpp lines 62-110).  The C++ header condition is
pollidx == 0 or (max_rpm == 0 and get_max_rpm(next_cmd) != nullptr); the
or short-circuits, so when pollidx == 0 get_max_rpm is NOT called and the
iteration holds no discovery request even though pollidx becomes 1 and
next_cmd.critical becomes true.  When no interpreter was produced, a
queued envelope (xQueueReceive overwrites next_cmd whole, critical flag
included) takes precedence over the fall-through poll switch. -/
def select_command (pollidx : Nat) (max_rpm : Nat) (caps : VendorCaps)
    (queue : List ModbusCommand) : SelectResult :=
  let fromDiscovery := pollidx != 0 && max_rpm == 0 && caps.has_max_rpm
  let headerCond := pollidx == 0 || (max_rpm == 0 && caps.has_max_rpm)
  let critical0 := headerCond
  let pollidx1 := if headerCond then 1 else pollidx
  if fromDiscovery then
    { sel := Selected.discover, critical := true, pollidx := pollidx1, queue := queue }
  else
    match queue with
    | c :: rest =>
      { sel := Selected.queued c, critical := c.critical, pollidx := pollidx1, queue := rest }
    | [] =>
      if pollidx1 = 1 && caps.has_current_rpm then
        { sel := Selected.pollRpm, critical := critical0, pollidx := 2, queue := [] }
      else if (pollidx1 = 1 || pollidx1 = 2) && caps.has_current_direction then
        { sel := Selected.pollDir, critical := critical0, pollidx := 3, queue := [] }
      else if pollidx1 = 1 || pollidx1 = 2 || pollidx1 = 3 then
        (if caps.has_status_ok then
          { sel := Selected.pollStatus, critical := critical0, pollidx := 1, queue := [] }
        else
          { sel := Selected.idle, critical := critical0, pollidx := 1, queue := [] })
      else
        { sel := Selected.idle, critical := critical0, pollidx := pollidx1, queue := [] }

/-- Index of the first attempt (strictly below the retry ceiling) on which
the response passes validation, none when every attempt fails.  The link
is abstracted as a per-attempt validity oracle: attempt k sends the frame,
reads back bytes, and valid k says whether the length / address / CRC
check of vfd_cmd_task accepted them. -/
def firstValid (valid : Nat → Bool) (maxR : Nat) : Option Nat :=
  (List.range maxR).find? (fun k => valid k)

/-- What one send/receive cycle of vfd_cmd_task produces: the static
unresponsive flag after the cycle, whether system_set_exec_alarm was
invoked, how many times the frame was written to the UART, and which of
the two log lines the claims mention were emitted (the once-per-transition
unresponsive message, and the unsatisfying-response message). -/
structure TransactionResult where
  unresponsive : Bool
  alarm : Bool
  sends : Nat
  logged_unresp : Bool
  logged_semantic : Bool
deriving DecidableEq

/-- The retry loop and its follow-up (VFDSpindle.cpp lines 130-200).
for (retry_count = 0; retry_count < MAX_RETRIES; ++retry_count): send, read,
validate.  On a valid frame: unresponsive := false, retry_count :=
MAX_RETRIES + 1 (stop retrying, and skip the post-loop block, which only
fires when retry_count == MAX_RETRIES); if an interpreter is attached and
rejects the content, log and set unresponsive := true.  When every attempt
fails, the loop exits with retry_count == MAX_RETRIES and the post-loop
block runs: if the device was responsive, log once, raise the alarm iff
the envelope is critical, and latch unresponsive. -/
def exec_transaction (maxR : Nat) (valid : Nat → Bool) (semOk : Nat → Bool)
    (hasInterp : Bool) (critical : Bool) (unresp : Bool) : TransactionResult :=
  match firstValid valid maxR with
  | some k =>
    if hasInterp && !(semOk k) then
      { unresponsive := true, alarm := false, sends := k + 1,
        logged_unresp := false, logged_semantic := true }
    else
      { unresponsive := false, alarm := false, sends := k + 1,
        logged_unresp := false, logged_semantic := false }
  | none =>
    if unresp = false then
      { unresponsive := true, alarm := critical, sends := maxR,
        logged_unresp := true, logged_semantic := false }
    else
      { unresponsive := true, alarm := false, sends := maxR,
        logged_unresp := false, logged_semantic := false }

/-- n consecutive vfd_cmd_task iterations sending the same kind of
envelope over the same link, threading the static unresponsive flag;
returns the final flag and the total number of system_set_exec_alarm
invocations. -/
def exec_iterate (maxR : Nat) (valid : Nat → Bool) (semOk : Nat → Bool)
    (hasInterp : Bool) (critical : Bool) : Nat → Bool → Bool × Nat
  | 0, u => (u, 0)
  | n + 1, u =>
    let r := exec_transaction maxR valid semOk hasInterp critical u
    let p := exec_iterate maxR valid semOk hasInterp critical n r.unresponsive
    (p.1, (if r.alarm then 1 else 0) + p.2)

/-- The value a set_rpm call works with: the request scaled by the
override percentage in uint32 arithmetic, then passed through the limit
block. -/
def clamped_request (d : VFDState) (x : Nat) : Nat :=
  clampRpm d.min_rpm d.max_rpm (x * d.sys.spindle_speed_ovr % UINT32_MOD / 100)

/-! ## Concrete states used to instantiate the theorems -/

/-- A sys slice outside abort and outside a job cycle, with the default
100 percent override (spec section 8 scenarios). -/
def exampleSys : SysState :=
  { abort := false, state_is_cycle := false, spindle_speed := 500,
    spindle_speed_ovr := 100, report_ovr_counter := 7 }

/-- An initialized device running clockwise at 500 rpm with bounds
100..1000 and three stale envelopes pending. -/
def runningDevice : VFDState :=
  { vfd_ok := true, min_rpm := 100, max_rpm := 1000, current_rpm := 500,
    current_state := SpindleState.CW,
    queue := [{ payload := Payload.other 1, critical := false },
              { payload := Payload.other 2, critical := false },
              { payload := Payload.other 3, critical := false }],
    sys := exampleSys }

/-- The same device with an empty queue. -/
def idleDevice : VFDState :=
  { runningDevice with queue := [] }

/-- The same device with a full queue (VFD_RS485_QUEUE_SIZE envelopes). -/
def fullQueueDevice : VFDState :=
  { runningDevice with
    queue := (List.range VFD_RS485_QUEUE_SIZE).map
      (fun k => { payload := Payload.other k, critical := false }) }

/-- A device whose initialization failed (configuration fault):
vfd_ok stayed false, nothing queued, cached state Disable. -/
def uninitDevice : VFDState :=
  { runningDevice with
    vfd_ok := false,
    queue := [],
    current_state := SpindleState.Disable }

/-! ## Theorems -/

/-- The source bit step and the spec-worded bit step agree. -/
theorem crcBitStep_eq_spec : crcBitStep = crcSpecBitStep := by
  funext x
  rcases Nat.mod_two_eq_zero_or_one x with h | h <;>
    simp [crcBitStep, crcSpecBitStep, h, Nat.testBit_zero, Nat.shiftRight_one]

/-- Claim C4: ModRTU_CRC implements the table-free Modbus-RTU CRC-16 as
the spec words it (initialize to 0xFFFF; per byte XOR into the low byte,
then 8 shift-right iterations with conditional XOR 0xA001 on bit0), and
for every byte sequence, appending the checksum low byte then high byte
yields a frame that the executor's CRC validation (recomputing the CRC
over all bytes but the trailing two and comparing in the same byte order)
accepts. -/
theorem C4_checksum_codec :
    (∀ buf : List Nat, ModRTU_CRC buf = modbusCRCSpec buf) ∧
    (∀ seq : List Nat, crc_check (add_crc seq) = true) := by
  have hbyte : crcByteStep = fun c b => crcSpecBitStep^[8] (c ^^^ (b % 256)) := by
    funext c b
    simp only [crcByteStep, crcBitStep_eq_spec]
  constructor
  · intro buf
    simp only [ModRTU_CRC, modbusCRCSpec, hbyte]
  · intro seq
    simp only [crc_check, add_crc, List.length_append, List.length_cons,
      List.length_nil]
    have h2 : seq.length + (0 + 1 + 1) - 2 = seq.length := by omega
    have h1 : seq.length + (0 + 1 + 1) - 1 = seq.length + 1 := by omega
    rw [h2, h1, List.take_left, List.getD_append_right _ _ _ _ (by omega),
      List.getD_append_right _ _ _ _ (by omega)]
    simp

/-- The limit block rewritten with Prop conditions, for arithmetic reasoning. -/
theorem clampRpm_eq (mn mx r : Nat) :
    clampRpm mn mx r =
      if mn ≥ mx ∨ r ≥ mx then mx else if r ≠ 0 ∧ r ≤ mn then mn else r := by
  unfold clampRpm
  by_cases h1 : mn ≥ mx ∨ r ≥ mx <;> by_cases h2 : r ≠ 0 ∧ r ≤ mn <;>
    simp [h1, h2]

/-- Claim C3: for every initialized device, set_rpm caches the clamped
value of the override-scaled request, and the clamp lies in [0, maxRpm]:
forced to maxRpm when minRpm >= maxRpm; a nonzero value at most minRpm is
raised to minRpm; and for minRpm < maxRpm a value already inside
[minRpm, maxRpm], or zero, is left unchanged. -/
theorem C3_rpm_clamping (d : VFDState) (rpm0 : Nat) (h : d.vfd_ok = true) :
    (set_rpm d rpm0).1.current_rpm
        = clampRpm d.min_rpm d.max_rpm
            (rpm0 * d.sys.spindle_speed_ovr % UINT32_MOD / 100) ∧
    (∀ mn mx r, clampRpm mn mx r ≤ mx
      ∧ (mn ≥ mx → clampRpm mn mx r = mx)
      ∧ (mn < mx → r ≠ 0 → r ≤ mn → clampRpm mn mx r = mn)
      ∧ (mn < mx → ((mn ≤ r ∧ r ≤ mx) ∨ r = 0) → clampRpm mn mx r = r)) := by
  constructor
  · unfold set_rpm
    rw [if_neg (by simp [h])]
    dsimp only
    split
    · rename_i heq
      simpa using heq.symm
    · rfl
  · intro mn mx r
    refine ⟨?_, fun h1 => ?_, fun h1 h2 h3 => ?_, fun h1 h2 => ?_⟩ <;>
      rw [clampRpm_eq] <;> split_ifs <;> omega

/-- A link that never validates yields no successful attempt. -/
theorem firstValid_none (valid : Nat → Bool) (maxR : Nat)
    (h : ∀ k, valid k = false) : firstValid valid maxR = none := by
  unfold firstValid
  rw [List.find?_eq_none]
  intro x _
  simp [h x]

/-- Once unresponsive, further all-failing iterations raise no alarm and
keep the flag latched. -/
theorem exec_iterate_silent (maxR : Nat) (valid semOk : Nat → Bool)
    (hasInterp critical : Bool) (h : ∀ k, valid k = false) :
    ∀ n, exec_iterate maxR valid semOk hasInterp critical n true = (true, 0) := by
  intro n
  induction n with
  | zero => rfl
  | succ n ih =>
    unfold exec_iterate exec_transaction
    rw [firstValid_none valid maxR h]
    simp [ih]

/-- Claim C1: with a link that never produces a valid response, the
executor sends the envelope exactly MAX_RETRIES times; a critical envelope
starting from a responsive state invokes the fault channel on that
iteration, exactly once over any number of further iterations while the
device stays continuously unresponsive; and no iteration that obtains a
valid response before the ceiling ever raises the alarm. -/
theorem C1_retry_ceiling (maxR n : Nat) (valid semOk : Nat → Bool)
    (hasInterp : Bool) (hto : ∀ k, valid k = false) (hn : 1 ≤ n) :
    (exec_transaction maxR valid semOk hasInterp true false).sends = maxR ∧
    (exec_transaction maxR valid semOk hasInterp true false).alarm = true ∧
    (exec_iterate maxR valid semOk hasInterp true n false).2 = 1 ∧
    (exec_iterate maxR valid semOk hasInterp true n false).1 = true ∧
    (∀ (v s : Nat → Bool) (hp c u : Bool) (k : Nat),
      firstValid v maxR = some k →
      (exec_transaction maxR v s hp c u).alarm = false) := by
  have htx : exec_transaction maxR valid semOk hasInterp true false =
      { unresponsive := true, alarm := true, sends := maxR,
        logged_unresp := true, logged_semantic := false } := by
    unfold exec_transaction
    rw [firstValid_none valid maxR hto]
    simp
  obtain ⟨m, rfl⟩ : ∃ m, n = m + 1 := ⟨n - 1, by omega⟩
  refine ⟨by rw [htx], by rw [htx], ?_, ?_, ?_⟩
  · unfold exec_iterate
    rw [htx]
    simp [exec_iterate_silent maxR valid semOk hasInterp true hto]
  · unfold exec_iterate
    rw [htx]
    simp [exec_iterate_silent maxR valid semOk hasInterp true hto]
  · intro v s hp c u k hk
    unfold exec_transaction
    rw [hk]
    dsimp only
    split <;> rfl

/-- Witness for C1: ceiling 5, an always-dead link, three iterations. -/
theorem C1_retry_ceiling_witness :
    (exec_transaction 5 (fun _ => false) (fun _ => true) true true false).sends = 5 ∧
    (exec_iterate 5 (fun _ => false) (fun _ => true) true true 3 false).2 = 1 := by
  have h := C1_retry_ceiling 5 3 (fun _ => false) (fun _ => true) true
    (fun _ => rfl) (by omega)
  exact ⟨h.1, h.2.2.1⟩

/-- Counterexample to C6 as stated: a critical envelope whose valid
response fails semantic interpretation raises no alarm at all (the claim
predicts an alarm exactly when the envelope is critical). -/
theorem C6_counterexample :
    (exec_transaction 5 (fun k => k == 0) (fun _ => false) true true false).alarm
        = false ∧
    (exec_transaction 5 (fun k => k == 0) (fun _ => false) true true false).unresponsive
        = true := by decide

/-- Claim C6 (amended): when a frame passes validation but the attached
interpreter rejects it, the executor logs, marks the device unresponsive,
stops retrying that frame, and never raises the system alarm, whatever
the critical flag (the success path moves the retry counter past the
ceiling, so the escalation branch is skipped). -/
theorem C6_semantic_fault (maxR : Nat) (valid semOk : Nat → Bool)
    (critical unresp : Bool) (k : Nat)
    (hv : firstValid valid maxR = some k) (hs : semOk k = false) :
    (exec_transaction maxR valid semOk true critical unresp).unresponsive = true ∧
    (exec_transaction maxR valid semOk true critical unresp).logged_semantic = true ∧
    (exec_transaction maxR valid semOk true critical unresp).alarm = false ∧
    (exec_transaction maxR valid semOk true critical unresp).sends = k + 1 ∧
    k < maxR := by
  have hk : k < maxR := by
    unfold firstValid at hv
    simpa [List.mem_range] using List.mem_of_find?_eq_some hv
  unfold exec_transaction
  rw [hv]
  simp [hs, hk]

/-- Witness for C6: valid response on the first attempt, rejected by the
interpreter, on a critical envelope. -/
theorem C6_semantic_fault_witness :
    (exec_transaction 5 (fun k => k == 0) (fun _ => false) true true false).logged_semantic
        = true ∧
    (exec_transaction 5 (fun k => k == 0) (fun _ => false) true true false).sends
        = 0 + 1 := by
  have h := C6_semantic_fault 5 (fun k => k == 0) (fun _ => false) true false 0
    (by decide) rfl
  exact ⟨h.2.1, h.2.2.2.1⟩

/-- Counterexample to C5 as stated: on the very first executor iteration
(pollidx == 0) with max RPM unknown and a pending queued command, the
short-circuited header condition skips get_max_rpm, and the queued
envelope - not a discovery request - is selected. -/
theorem C5_counterexample :
    (select_command 0 0 ⟨true, true, true, true⟩
        [{ payload := Payload.other 7, critical := false }]).sel
      = Selected.queued { payload := Payload.other 7, critical := false } ∧
    (select_command 0 0 ⟨true, true, true, true⟩
        [{ payload := Payload.other 7, critical := false }]).sel
      ≠ Selected.discover := by decide

/-- Claim C5 (amended): on every iteration with pollidx nonzero, max RPM
still unknown and a vendor-supplied get_max_rpm, the executor selects the
discovery request and marks it critical, in preference to any queued
command; on the very first iteration (pollidx == 0) the condition
short-circuits and the command comes from the queue or the poll cycle
instead. -/
theorem C5_discovery_preference (pollidx max_rpm : Nat) (caps : VendorCaps)
    (queue : List ModbusCommand) (hp : pollidx ≠ 0) (hm : max_rpm = 0)
    (hc : caps.has_max_rpm = true) :
    (select_command pollidx max_rpm caps queue).sel = Selected.discover ∧
    (select_command pollidx max_rpm caps queue).critical = true := by
  have h0 : (pollidx != 0) = true := by simpa using hp
  unfold select_command
  simp [h0, hm, hc]

/-- Witness for C5: second iteration (pollidx 1), discovery still due,
with a queued command waiting. -/
theorem C5_discovery_preference_witness :
    (select_command 1 0 ⟨true, true, true, true⟩
        [{ payload := Payload.other 7, critical := false }]).sel
      = Selected.discover ∧
    (select_command 1 0 ⟨true, true, true, true⟩
        [{ payload := Payload.other 7, critical := false }]).critical = true :=
  C5_discovery_preference 1 0 ⟨true, true, true, true⟩
    [{ payload := Payload.other 7, critical := false }] (by decide) rfl rfl

/-- Witness for C3 at the initialized example device, request 50 rpm
(the spec section 8 scenario: bounds 100..1000, override 100 percent). -/
theorem C3_rpm_clamping_witness :
    (set_rpm runningDevice 50).1.current_rpm
        = clampRpm runningDevice.min_rpm runningDevice.max_rpm
            (50 * runningDevice.sys.spindle_speed_ovr % UINT32_MOD / 100)
    ∧ clampRpm 100 1000 50 ≤ 1000 :=
  ⟨(C3_rpm_clamping runningDevice 50 rfl).1,
   ((C3_rpm_clamping runningDevice 50 rfl).2 100 1000 50).1⟩

/-- Closed form of set_rpm on an initialized device: store the clamped
scaled value into sys.spindle_speed, and unless it equals the cached rpm,
cache it and enqueue a non-critical speed command. -/
theorem set_rpm_spec (d : VFDState) (x : Nat) (h : d.vfd_ok = true) :
    set_rpm d x =
      if clamped_request d x = d.current_rpm then
        ({ d with sys := { d.sys with spindle_speed := clamped_request d x } },
         clamped_request d x)
      else
        ({ d with
            current_rpm := clamped_request d x,
            queue := (xQueueSend d.queue
              { payload := Payload.speed (clamped_request d x), critical := false }).1,
            sys := { d.sys with spindle_speed := clamped_request d x } },
         clamped_request d x) := by
  unfold set_rpm clamped_request
  rw [if_neg (by simp [h])]

/-- The no-enqueue branch of set_rpm. -/
theorem set_rpm_noop (d : VFDState) (x : Nat) (h : d.vfd_ok = true)
    (hz : clamped_request d x = d.current_rpm) :
    (set_rpm d x).1 =
      { d with sys := { d.sys with spindle_speed := clamped_request d x } } := by
  rw [set_rpm_spec d x h, if_pos hz]

/-- The enqueue branch of set_rpm. -/
theorem set_rpm_enqueue (d : VFDState) (x : Nat) (h : d.vfd_ok = true)
    (hz : clamped_request d x ≠ d.current_rpm) :
    (set_rpm d x).1 =
      { d with
        current_rpm := clamped_request d x,
        queue := (xQueueSend d.queue
          { payload := Payload.speed (clamped_request d x), critical := false }).1,
        sys := { d.sys with spindle_speed := clamped_request d x } } := by
  rw [set_rpm_spec d x h, if_neg hz]

/-- Whenever the clamped request equals the cached rpm, set_rpm leaves
the queue untouched (on an uninitialized device it bails out anyway). -/
theorem set_rpm_queue_noop (d : VFDState) (x : Nat)
    (hz : clamped_request d x = d.current_rpm) :
    (set_rpm d x).1.queue = d.queue := by
  by_cases h : d.vfd_ok = true
  · rw [set_rpm_noop d x h hz]
  · unfold set_rpm
    rw [if_pos (by simpa using h)]

/-- Claim C9 (amended): a second identical set_rpm call never enqueues
(the second call finds the clamped value equal to the cache); the pair
enqueues exactly one envelope when the first call's clamped value differs
from the cached currentRpm and the queue has room, and zero envelopes
when it does not differ. -/
theorem C9_set_rpm_idempotent (d : VFDState) (x : Nat) :
    (set_rpm (set_rpm d x).1 x).1.queue = (set_rpm d x).1.queue ∧
    (d.vfd_ok = true → clamped_request d x ≠ d.current_rpm →
      d.queue.length < VFD_RS485_QUEUE_SIZE →
      (set_rpm d x).1.queue.length = d.queue.length + 1) := by
  by_cases h : d.vfd_ok = true
  · by_cases hz : clamped_request d x = d.current_rpm
    · rw [set_rpm_noop d x h hz]
      refine ⟨?_, fun _ hne _ => absurd hz hne⟩
      exact set_rpm_queue_noop _ x (by simpa [clamped_request] using hz)
    · rw [set_rpm_enqueue d x h hz]
      constructor
      · exact set_rpm_queue_noop _ x (by simp [clamped_request])
      · intro _ _ hlen
        simp [xQueueSend, hlen]
  · have h' : d.vfd_ok = false := by simpa using h
    have hstep : set_rpm d x = (d, 0) := by
      unfold set_rpm
      rw [if_pos h']
    rw [hstep]
    exact ⟨by rw [hstep], fun hv => absurd hv h⟩

/-- Counterexample to C9 as stated: when the clamped request already
equals the cached rpm, two identical calls enqueue zero envelopes, not
exactly one. -/
theorem C9_counterexample :
    idleDevice.queue.length = 0 ∧
    ((set_rpm (set_rpm idleDevice 500).1 500).1).queue.length = 0 := by decide

/-- Witness for C9 at the empty-queue example device, request 300 rpm
(clamps to 300, cache holds 500). -/
theorem C9_set_rpm_idempotent_witness :
    (set_rpm (set_rpm idleDevice 300).1 300).1.queue
        = (set_rpm idleDevice 300).1.queue ∧
    (set_rpm idleDevice 300).1.queue.length = idleDevice.queue.length + 1 := by
  have h := C9_set_rpm_idempotent idleDevice 300
  exact ⟨h.1, h.2 rfl (by decide) (by decide)⟩

/-- Claim C10: on a full queue, set_rpm with a fresh clamped value still
returns that value and updates the cached rpm and sys.spindle_speed before
the enqueue fails; the queue is unchanged, and an immediately repeated
identical call enqueues nothing (the dropped command is not re-attempted). -/
theorem C10_queue_full_not_atomic (d : VFDState) (x : Nat)
    (h : d.vfd_ok = true) (hfull : d.queue.length = VFD_RS485_QUEUE_SIZE)
    (hne : clamped_request d x ≠ d.current_rpm) :
    (set_rpm d x).2 = clamped_request d x ∧
    (set_rpm d x).1.current_rpm = clamped_request d x ∧
    (set_rpm d x).1.sys.spindle_speed = clamped_request d x ∧
    (set_rpm d x).1.queue = d.queue ∧
    (set_rpm (set_rpm d x).1 x).1.queue = d.queue := by
  have hq : (xQueueSend d.queue
      { payload := Payload.speed (clamped_request d x), critical := false }).1
        = d.queue := by
    simp [xQueueSend, hfull]
  refine ⟨?_, ?_, ?_, ?_, ?_⟩
  · rw [set_rpm_spec d x h, if_neg hne]
  · rw [set_rpm_enqueue d x h hne]
  · rw [set_rpm_enqueue d x h hne]
  · rw [set_rpm_enqueue d x h hne]
    exact hq
  · rw [set_rpm_enqueue d x h hne]
    refine Eq.trans (set_rpm_queue_noop _ x (by simp [clamped_request])) ?_
    exact hq

/-- Witness for C10 at the full-queue example device, request 300 rpm. -/
theorem C10_queue_full_not_atomic_witness :
    (set_rpm fullQueueDevice 300).2 = clamped_request fullQueueDevice 300 ∧
    (set_rpm fullQueueDevice 300).1.queue = fullQueueDevice.queue := by
  have h := C10_queue_full_not_atomic fullQueueDevice 300 rfl (by decide) (by decide)
  exact ⟨h.1, h.2.2.2.1⟩

/-- Closed form of set_mode into Disable on an initialized device: the
queue is cleared, then the single mode-change envelope is enqueued, and
the cached state becomes Disable. -/
theorem set_mode_disable (d : VFDState) (critical : Bool) (h : d.vfd_ok = true) :
    (set_mode d SpindleState.Disable critical).1 =
      { d with
        current_state := SpindleState.Disable,
        queue := [{ payload := Payload.mode SpindleState.Disable,
                    critical := critical }] } := by
  unfold set_mode
  rw [if_neg (by simp [h])]
  dsimp only
  rw [if_pos rfl]
  rfl

/-- Counterexample to C8 as stated: on the running example device, stop()
and setState(Disabled, 0) differ in queue contents, cached currentRpm and
sys.spindle_speed (stop never calls set_rpm). -/
theorem C8_counterexample :
    (stop runningDevice).queue.length = 1 ∧
    (set_state runningDevice SpindleState.Disable 0).queue.length = 2 ∧
    (stop runningDevice).current_rpm = 500 ∧
    (set_state runningDevice SpindleState.Disable 0).current_rpm = 0 ∧
    (stop runningDevice).sys.spindle_speed = 500 ∧
    (set_state runningDevice SpindleState.Disable 0).sys.spindle_speed = 0 := by
  decide

/-- Claim C8 (amended): stop() is exactly set_mode(Disable, false): it
clears the queue, enqueues one non-critical disable envelope and caches
state Disabled, while leaving the cached currentRpm and the whole sys
slice (sys.spindle_speed included) untouched - unlike setState(Disabled,0),
which also runs set_rpm. -/
theorem C8_stop_is_set_mode (d : VFDState) (h : d.vfd_ok = true) :
    stop d = (set_mode d SpindleState.Disable false).1 ∧
    (stop d).queue
        = [{ payload := Payload.mode SpindleState.Disable, critical := false }] ∧
    (stop d).current_state = SpindleState.Disable ∧
    (stop d).current_rpm = d.current_rpm ∧
    (stop d).sys = d.sys := by
  unfold stop
  rw [set_mode_disable d false h]
  exact ⟨rfl, rfl, rfl, rfl, rfl⟩

/-- Witness for C8 at the running example device. -/
theorem C8_stop_is_set_mode_witness :
    (stop runningDevice).queue
        = [{ payload := Payload.mode SpindleState.Disable, critical := false }] ∧
    (stop runningDevice).current_rpm = runningDevice.current_rpm :=
  ⟨(C8_stop_is_set_mode runningDevice rfl).2.1,
   (C8_stop_is_set_mode runningDevice rfl).2.2.2.1⟩

/-- Counterexample to C7 as stated: after a failed initialization
(vfd_ok false), setState(EnabledClockwise, 500) enqueues nothing, but the
cached device state does NOT stay unchanged - line 363 of the source sets
_current_state unconditionally, so it flips from Disable to clockwise. -/
theorem C7_counterexample :
    (set_state uninitDevice SpindleState.CW 500).queue = [] ∧
    uninitDevice.current_state = SpindleState.Disable ∧
    (set_state uninitDevice SpindleState.CW 500).current_state
        = SpindleState.CW := by
  decide

/-- Claim C7 (amended): after a failed initialization, setState into
clockwise enqueues zero envelopes and touches neither the cached rpm nor
sys.spindle_speed (hence no bus activity), but the cached currentState is
still optimistically set to the requested state (and the override report
counter is reset) whenever no abort is pending. -/
theorem C7_uninit_silent (d : VFDState) (r : Nat) (h : d.vfd_ok = false) :
    (set_state d SpindleState.CW r).queue = d.queue ∧
    (set_state d SpindleState.CW r).current_rpm = d.current_rpm ∧
    (set_state d SpindleState.CW r).sys.spindle_speed = d.sys.spindle_speed ∧
    (d.sys.abort = false →
      (set_state d SpindleState.CW r).current_state = SpindleState.CW) := by
  by_cases ha : d.sys.abort = true
  · have hd : set_state d SpindleState.CW r = d := by
      unfold set_state
      rw [if_pos ha]
    rw [hd]
    exact ⟨rfl, rfl, rfl, fun hab => by rw [ha] at hab; cases hab⟩
  · have hd : set_state d SpindleState.CW r =
        { d with current_state := SpindleState.CW,
                 sys := { d.sys with report_ovr_counter := 0 } } := by
      unfold set_state set_mode set_rpm
      rw [if_neg ha]
      dsimp only
      split
      · simp [h]
      · split <;> simp [h]
    rw [hd]
    exact ⟨rfl, rfl, rfl, fun _ => rfl⟩

/-- Witness for C7 at the failed-initialization example device. -/
theorem C7_uninit_silent_witness :
    (set_state uninitDevice SpindleState.CW 500).queue = uninitDevice.queue ∧
    (set_state uninitDevice SpindleState.CW 500).current_rpm
        = uninitDevice.current_rpm ∧
    (set_state uninitDevice SpindleState.CW 500).current_state
        = SpindleState.CW := by
  have h := C7_uninit_silent uninitDevice 500 rfl
  exact ⟨h.1, h.2.1, h.2.2.2 rfl⟩

/-- set_rpm with request 0 on an initialized device: the scaled request is
0, so the queue is untouched when clamp(0) equals the cache and gets one
speed envelope otherwise. -/
theorem set_rpm_zero_queue (d : VFDState) (h : d.vfd_ok = true) :
    (set_rpm d 0).1.queue =
      if clampRpm d.min_rpm d.max_rpm 0 = d.current_rpm then d.queue
      else (xQueueSend d.queue
        { payload := Payload.speed (clampRpm d.min_rpm d.max_rpm 0),
          critical := false }).1 := by
  have hz : clamped_request d 0 = clampRpm d.min_rpm d.max_rpm 0 := by
    unfold clamped_request
    simp
  by_cases hc : clampRpm d.min_rpm d.max_rpm 0 = d.current_rpm
  · rw [if_pos hc, set_rpm_queue_noop d 0 (hz.trans hc)]
  · rw [if_neg hc, set_rpm_enqueue d 0 h (by rw [hz]; exact hc), hz]

/-- Full queue contents after setState(Disabled, 0) on an initialized
device whose cached state is not Disable: the queue is cleared, the
disable mode envelope (critical iff a job cycle is running) goes first,
and a speed-0 envelope follows exactly when clamp(0) differs from the
cached rpm. -/
theorem set_state_disable_queue (d : VFDState) (h : d.vfd_ok = true)
    (ha : d.sys.abort = false) (hs : d.current_state ≠ SpindleState.Disable) :
    (set_state d SpindleState.Disable 0).queue =
      if clampRpm d.min_rpm d.max_rpm 0 = d.current_rpm then
        [{ payload := Payload.mode SpindleState.Disable,
           critical := d.sys.state_is_cycle }]
      else
        [{ payload := Payload.mode SpindleState.Disable,
           critical := d.sys.state_is_cycle },
         { payload := Payload.speed (clampRpm d.min_rpm d.max_rpm 0),
           critical := false }] := by
  unfold set_state
  rw [if_neg (by simp [ha])]
  dsimp only
  rw [if_pos (by simpa using hs)]
  rw [set_mode_disable d _ h]
  rw [if_pos rfl]
  dsimp only
  rw [set_rpm_zero_queue
    { d with
      current_state := SpindleState.Disable,
      queue := [{ payload := Payload.mode SpindleState.Disable,
                  critical := d.sys.state_is_cycle
                    || (SpindleState.Disable != SpindleState.Disable) }] } h]
  simp [xQueueSend, VFD_RS485_QUEUE_SIZE]

/-- Counterexample to C2 as stated: on the running example device (cached
rpm 500, three pending envelopes), setState(Disabled, 0) leaves TWO
envelopes in the queue (the disable mode command plus the speed-0 command
enqueued by the set_rpm(0) call that follows), not exactly one. -/
theorem C2_counterexample :
    runningDevice.queue.length = 3 ∧
    (set_state runningDevice SpindleState.Disable 0).queue.length = 2 := by
  decide

/-- Claim C2 (amended): setState(Disabled, 0) with N pending envelopes
clears the queue before enqueuing the disable mode-change envelope (which
therefore sits at the head), but the call then runs set_rpm(0), so the
queue afterwards holds exactly one envelope only when clamp(0) equals the
cached currentRpm, and exactly two (mode change plus speed 0) otherwise. -/
theorem C2_disable_queue (d : VFDState) (h : d.vfd_ok = true)
    (ha : d.sys.abort = false) (hs : d.current_state ≠ SpindleState.Disable) :
    (set_state d SpindleState.Disable 0).queue.head?
        = some { payload := Payload.mode SpindleState.Disable,
                 critical := d.sys.state_is_cycle } ∧
    (set_state d SpindleState.Disable 0).queue.length
        = if clampRpm d.min_rpm d.max_rpm 0 = d.current_rpm then 1 else 2 := by
  rw [set_state_disable_queue d h ha hs]
  by_cases hc : clampRpm d.min_rpm d.max_rpm 0 = d.current_rpm <;>
    simp [hc]

/-- Witness for C2 at the running example device. -/
theorem C2_disable_queue_witness :
    (set_state runningDevice SpindleState.Disable 0).queue.head?
        = some { payload := Payload.mode SpindleState.Disable,
                 critical := runningDevice.sys.state_is_cycle } ∧
    (set_state runningDevice SpindleState.Disable 0).queue.length = 2 := by
  have h := C2_disable_queue runningDevice rfl rfl (by decide)
  refine ⟨h.1, ?_⟩
  rw [h.2]
  decide

end Spindles
